import Mathlib

/-!
Verification of `src/Indian_companies_sectors.py` (class `CompanyDataExtractor`),
a sequential batch ETL script: connect to a MySQL store, ensure a destination
table exists, read (Symbol, Name) pairs from a source table, and for each pair
fetch four attributes from the yfinance provider and upsert them, sleeping a
fixed delay each iteration, then print a summary and close the connection.

The embedding below is a shallow model of that script.  External effects
(store connection, the DDL, the source-table query, the provider call, store
errors during the upsert) are supplied by an `Env` record; the script's own
control flow and the MySQL semantics of its SQL statements are modelled as
pure Lean functions.  Time is an abstract monotone counter `clock`
standing for CURRENT_TIMESTAMP.
-/

namespace IndianCompanies

/-- A provider response object (`ticker.info` in `fetch_company_data`).
Each of the four fields the script reads via `info.get(key, None)` is
`Option`-valued: `none` models the key being absent from the response. -/
structure TickerInfo where
  totalRevenue : Option Int
  marketCap : Option Int
  industry : Option String
  sector : Option String
deriving DecidableEq

/-- The dict built by `fetch_company_data` (lines 64-70 of the source):
exactly the five keys `symbol`, `revenue`, `market_cap`, `industry`,
`sector`, in that order. -/
structure CompanyData where
  symbol : String
  revenue : Option Int
  market_cap : Option Int
  industry : Option String
  sector : Option String
deriving DecidableEq

/-- Line 59 of the source: `ticker_symbol = symbol`.  Despite the comment
about appending `.NS` / `.BO`, no transformation is applied. -/
def ticker_symbol_for (symbol : String) : String := symbol

/-- The body of the `try` block of `fetch_company_data`, as a function of the
provider's response for the queried ticker: an exception (`Except.error`)
is caught and mapped to `none` (line 73-75); a successful response is mapped
to the five-key dict, each absent field becoming `None` (lines 64-72). -/
def responseToData (symbol : String) : Except String TickerInfo → Option CompanyData
  | Except.error _ => none
  | Except.ok info =>
      some { symbol := symbol
             revenue := info.totalRevenue
             market_cap := info.marketCap
             industry := info.industry
             sector := info.sector }

/-- `CompanyDataExtractor.fetch_company_data` (lines 55-75).  The external
provider (`yf.Ticker(...).info`) is abstracted as a function from the queried
ticker string to a response or an exception. -/
def fetch_company_data (provider : String → Except String TickerInfo)
    (symbol : String) : Option CompanyData :=
  responseToData symbol (provider (ticker_symbol_for symbol))

/-- A row of the destination table `India_listed_companies_information`
(DDL at lines 89-100).  The `id AUTO_INCREMENT` surrogate key is omitted:
no claim mentions it.  Timestamps are abstract clock values. -/
structure DBRow where
  symbol : String
  revenue : Option Int
  market_cap : Option Int
  industry : Option String
  sector : Option String
  created_at : Nat
  updated_at : Nat
deriving DecidableEq

/-- True when the four updatable columns of `r` already hold exactly the
values the upsert would assign.  MySQL detects this case: an
`ON DUPLICATE KEY UPDATE` that sets every column to its current value does
not modify the row (affected-rows 0), so a `TIMESTAMP ... ON UPDATE
CURRENT_TIMESTAMP` column is not refreshed either. -/
def sameDataFields (r : DBRow) (d : CompanyData) : Bool :=
  r.revenue == d.revenue && r.market_cap == d.market_cap &&
    r.industry == d.industry && r.sector == d.sector

/-- The row created by the INSERT branch: the four data columns from the
dict, and both `created_at` and `updated_at` set by their
`DEFAULT CURRENT_TIMESTAMP`, hence to the same statement timestamp. -/
def insertRow (d : CompanyData) (now : Nat) : DBRow :=
  { symbol := d.symbol
    revenue := d.revenue
    market_cap := d.market_cap
    industry := d.industry
    sector := d.sector
    created_at := now
    updated_at := now }

/-- The `INSERT ... ON DUPLICATE KEY UPDATE` statement of
`insert_company_data` (lines 119-128), under the DDL of lines 89-100
(`symbol` UNIQUE, `updated_at TIMESTAMP ... ON UPDATE CURRENT_TIMESTAMP`),
executed against table state `table` at statement time `now`:
if no row carries `d.symbol`, a fresh row is appended; otherwise the
conflicting row has its four data columns set to the new values, and
`updated_at` is refreshed exactly when that actually changes the row. -/
def mysqlUpsert (table : List DBRow) (d : CompanyData) (now : Nat) :
    List DBRow :=
  if table.any (fun r => r.symbol == d.symbol) then
    table.map (fun r =>
      if r.symbol == d.symbol then
        if sameDataFields r d then r
        else { r with revenue := d.revenue
                      market_cap := d.market_cap
                      industry := d.industry
                      sector := d.sector
                      updated_at := now }
      else r)
  else table ++ [insertRow d now]

/-- The effect of the `ON DUPLICATE KEY UPDATE` branch on the one
conflicting row `r0`: the four data columns take the new values, and
`updated_at` is refreshed to the statement time exactly when at least one
column value actually changes (MySQL leaves the row untouched otherwise). -/
def updatedRow (r0 : DBRow) (d : CompanyData) (now : Nat) : DBRow :=
  if sameDataFields r0 d then r0
  else { r0 with revenue := d.revenue
                 market_cap := d.market_cap
                 industry := d.industry
                 sector := d.sector
                 updated_at := now }

/-- Number of rows of `table` keyed by symbol `s`. -/
def rowCount (table : List DBRow) (s : String) : Nat :=
  (table.filter (fun r => r.symbol == s)).length

/-- `CompanyDataExtractor.get_company_symbols` (lines 37-53): returns `[]`
after logging when no live connection exists (lines 39-41) or when the
`SELECT Symbol, Name FROM india_listed_companies` query raises (lines
51-53); otherwise returns the fetched rows.  It never raises. -/
def get_company_symbols (connected : Bool)
    (query : Except String (List (String × String))) :
    List (String × String) :=
  if connected then
    match query with
    | Except.ok rows => rows
    | Except.error _ => []
  else []

/-- The external world as `process_all_companies` observes it:
whether `connect_db` yields a live connection, whether the CREATE TABLE
DDL succeeds, the source-table query outcome, the provider, whether the
store accepts each upsert (False models a caught `mysql.connector.Error`,
in which case the transaction is never committed), the pre-existing
destination-table contents (CREATE TABLE IF NOT EXISTS keeps them), and
the starting clock. -/
structure Env where
  connect_ok : Bool
  create_table_ok : Bool
  symbols_query_ok : Bool
  source_rows : List (String × String)
  provider : String → Except String TickerInfo
  insert_ok : CompanyData → Bool
  table0 : List DBRow
  clock0 : Nat

/-- The result of the source-table query inside this run. -/
def envQuery (env : Env) : Except String (List (String × String)) :=
  if env.symbols_query_ok then Except.ok env.source_rows
  else Except.error "query error"

/-- `CompanyDataExtractor.insert_company_data` (lines 110-144) at a point
where the connection is live: on store success it executes the upsert and
commits, returning `true`; on a caught `Error` nothing is committed and it
returns `false`. -/
def insert_company_data (ok : CompanyData → Bool) (table : List DBRow)
    (d : CompanyData) (now : Nat) : Bool × List DBRow :=
  if ok d then (true, mysqlUpsert table d now) else (false, table)

/-- Mutable state of the `for` loop of `process_all_companies`
(lines 161-176), plus the sleep-call count and the clock. -/
structure LoopState where
  table : List DBRow
  clock : Nat
  successful : Nat
  failed : Nat
  sleeps : Nat
deriving DecidableEq

/-- One iteration of the loop (lines 161-176) on company `c = (symbol,
name)`: fetch; if the fetch produced a dict (always non-empty, so Python
truthiness coincides with `isSome`), attempt the upsert and bump
`successful` or `failed` accordingly; otherwise bump `failed`; in every
case end with `time.sleep(delay)` (line 176) and let the clock advance. -/
def processStep (env : Env) (st : LoopState) (c : String × String) :
    LoopState :=
  let st1 :=
    match fetch_company_data env.provider c.1 with
    | some d =>
        match insert_company_data env.insert_ok st.table d st.clock with
        | (true, t) =>
            { st with table := t, successful := st.successful + 1 }
        | (false, t) =>
            { st with table := t, failed := st.failed + 1 }
    | none => { st with failed := st.failed + 1 }
  { st1 with sleeps := st1.sleeps + 1, clock := st1.clock + 1 }

/-- Observable outcome of a whole `process_all_companies` call: the summary
counters, the final destination-table state, how many `time.sleep` calls
ran, whether the summary block printed, whether a store connection was
opened, and how many times `connection.close()` ran. -/
structure RunResult where
  total : Nat
  successful : Nat
  failed : Nat
  table : List DBRow
  sleepCalls : Nat
  summaryPrinted : Bool
  connectionOpened : Bool
  closeCalls : Nat
deriving DecidableEq

/-- `CompanyDataExtractor.process_all_companies` (lines 146-185).
Lines 148-149: a falsy `connect_db()` returns at once (no connection open).
Lines 151-152: a falsy `create_table()` returns at once — note the source
does NOT call `close_connection` on this path, so the connection opened at
line 148 stays open.  Otherwise the loop runs over `get_company_symbols()`
and the run ends with the summary prints and `close_connection()`. -/
def process_all_companies (env : Env) : RunResult :=
  if env.connect_ok then
    if env.create_table_ok then
      let companies := get_company_symbols true (envQuery env)
      let final := companies.foldl (processStep env)
        { table := env.table0, clock := env.clock0,
          successful := 0, failed := 0, sleeps := 0 }
      { total := companies.length
        successful := final.successful
        failed := final.failed
        table := final.table
        sleepCalls := final.sleeps
        summaryPrinted := true
        connectionOpened := true
        closeCalls := 1 }
    else
      { total := 0, successful := 0, failed := 0, table := env.table0,
        sleepCalls := 0, summaryPrinted := false,
        connectionOpened := true, closeCalls := 0 }
  else
    { total := 0, successful := 0, failed := 0, table := env.table0,
      sleepCalls := 0, summaryPrinted := false,
      connectionOpened := false, closeCalls := 0 }

/-- A fully populated provider response, used as a concrete test input. -/
def infoFull : TickerInfo :=
  { totalRevenue := some 100, marketCap := some 200,
    industry := some "Tech", sector := some "IT" }

/-- A provider response with every field absent, used as a concrete test
input. -/
def infoEmpty : TickerInfo :=
  { totalRevenue := none, marketCap := none,
    industry := none, sector := none }

/-- A concrete fetched dict for symbol `A`. -/
def dataA : CompanyData :=
  { symbol := "A", revenue := some 1, market_cap := some 2,
    industry := some "i", sector := some "s" }

/-- A destination-table row for symbol `A` holding exactly the values of
`dataA`, written at clock 0. -/
def rowA0 : DBRow :=
  { symbol := "A", revenue := some 1, market_cap := some 2,
    industry := some "i", sector := some "s",
    created_at := 0, updated_at := 0 }

/-- A provider that answers every query with `infoFull`. -/
def providerOk : String → Except String TickerInfo :=
  fun _ => Except.ok infoFull

/-- A provider whose every call raises. -/
def providerErr : String → Except String TickerInfo :=
  fun _ => Except.error "boom"

/-- A concrete healthy environment with a single source company. -/
def envBase : Env :=
  { connect_ok := true, create_table_ok := true, symbols_query_ok := true,
    source_rows := [("A", "Alpha")], provider := providerOk,
    insert_ok := fun _ => true, table0 := [], clock0 := 0 }

/-- A provider that knows only symbol `A` and raises on anything else. -/
def providerPicky : String → Except String TickerInfo :=
  fun t => if t = "A" then Except.ok infoFull else Except.error "unknown"

/-- A fetched dict for symbol `A` whose revenue differs from `rowA0`. -/
def dataB : CompanyData :=
  { symbol := "A", revenue := some 9, market_cap := some 2,
    industry := some "i", sector := some "s" }

/-- The healthy environment except that every provider call raises. -/
def envErr : Env := { envBase with provider := providerErr }

/-- The healthy environment except that the source table is empty. -/
def envEmpty : Env := { envBase with source_rows := [] }

/-- The healthy environment except that the CREATE TABLE DDL fails. -/
def envDDLFail : Env := { envBase with create_table_ok := false }

/-- The dict `fetch_company_data` builds from `infoFull` for symbol `A`. -/
def dataFull : CompanyData :=
  { symbol := "A", revenue := some 100, market_cap := some 200,
    industry := some "Tech", sector := some "IT" }

/-- The destination row the healthy one-company run inserts. -/
def rowFull : DBRow := insertRow dataFull 0

/-! Helper lemmas about the loop fold and the upsert. -/

/-- Each loop iteration increments exactly one of the two counters. -/
theorem processStep_counters (env : Env) (st : LoopState)
    (c : String × String) :
    (processStep env st c).successful + (processStep env st c).failed
      = st.successful + st.failed + 1 := by
  unfold processStep insert_company_data
  cases fetch_company_data env.provider c.1 with
  | none => simp; omega
  | some d =>
      by_cases h : env.insert_ok d = true <;> simp [h] <;> omega

/-- Each loop iteration performs exactly one sleep call. -/
theorem processStep_sleeps (env : Env) (st : LoopState)
    (c : String × String) :
    (processStep env st c).sleeps = st.sleeps + 1 := by
  unfold processStep insert_company_data
  cases fetch_company_data env.provider c.1 with
  | none => simp
  | some d =>
      by_cases h : env.insert_ok d = true <;> simp [h]

/-- Over the whole loop, successes and failures add up to one per company. -/
theorem foldl_counters (env : Env) (l : List (String × String)) :
    ∀ st : LoopState,
      ((l.foldl (processStep env) st).successful
          + (l.foldl (processStep env) st).failed)
        = st.successful + st.failed + l.length := by
  induction l with
  | nil => intro st; simp
  | cons c l ih =>
      intro st
      rw [List.foldl_cons, ih (processStep env st c), processStep_counters]
      simp
      omega

/-- Over the whole loop, one sleep call happens per company. -/
theorem foldl_sleeps (env : Env) (l : List (String × String)) :
    ∀ st : LoopState,
      (l.foldl (processStep env) st).sleeps = st.sleeps + l.length := by
  induction l with
  | nil => intro st; simp
  | cons c l ih =>
      intro st
      rw [List.foldl_cons, ih (processStep env st c), processStep_sleeps]
      simp only [List.length_cons]
      omega

/-- The per-row update function of the upsert never changes the symbol. -/
theorem upsertMap_symbol (d : CompanyData) (now : Nat) (r : DBRow) :
    ((if r.symbol == d.symbol then
        if sameDataFields r d then r
        else { r with revenue := d.revenue, market_cap := d.market_cap,
                      industry := d.industry, sector := d.sector,
                      updated_at := now }
      else r) : DBRow).symbol = r.symbol := by
  by_cases h1 : (r.symbol == d.symbol) = true
  · by_cases h2 : sameDataFields r d = true <;> simp [h1, h2]
  · simp [h1]

/-- Rows keyed by a symbol other than the upserted one are untouched. -/
theorem mysqlUpsert_filter_ne (t : List DBRow) (d : CompanyData) (now : Nat)
    (s : String) (h : d.symbol ≠ s) :
    (mysqlUpsert t d now).filter (fun r => r.symbol == s)
      = t.filter (fun r => r.symbol == s) := by
  unfold mysqlUpsert
  by_cases hany : (t.any (fun r => r.symbol == d.symbol)) = true
  · rw [if_pos hany]
    clear hany
    induction t with
    | nil => rfl
    | cons r t ih =>
        simp only [List.map_cons, List.filter_cons, upsertMap_symbol]
        by_cases hr : (r.symbol == s) = true
        · have hrd : (r.symbol == d.symbol) = false := by
            rw [beq_eq_false_iff_ne]
            intro hc
            exact h (hc ▸ (beq_iff_eq.mp hr))
          simp only [hr, if_true, hrd, Bool.false_eq_true, if_false]
          rw [ih]
        · simp only [hr, Bool.false_eq_true, if_false]
          exact ih
  · simp only [hany, Bool.false_eq_true, if_false, List.filter_append]
    have hs : ((insertRow d now).symbol == s) = false := by
      rw [beq_eq_false_iff_ne]; exact h
    simp [hs]

/-- Every row present after an upsert was already present or carries the
upserted symbol. -/
theorem mysqlUpsert_mem (t : List DBRow) (d : CompanyData) (now : Nat)
    (r : DBRow) (hr : r ∈ mysqlUpsert t d now) :
    r ∈ t ∨ r.symbol = d.symbol := by
  unfold mysqlUpsert at hr
  by_cases hany : (t.any (fun r => r.symbol == d.symbol)) = true
  · rw [if_pos hany] at hr
    rcases List.mem_map.mp hr with ⟨r0, hr0, hmap⟩
    by_cases h1 : (r0.symbol == d.symbol) = true
    · right
      have := upsertMap_symbol d now r0
      rw [hmap] at this
      rw [this]
      exact beq_iff_eq.mp h1
    · left
      rw [← hmap]
      simp only [h1, Bool.false_eq_true, if_false]
      exact hr0
  · rw [if_neg hany] at hr
    rcases List.mem_append.mp hr with h1 | h1
    · exact Or.inl h1
    · right
      rw [List.mem_singleton.mp h1]
      rfl

/-- On a symbol with no existing row, the upsert takes the INSERT branch
and appends a fresh row. -/
theorem mysqlUpsert_fresh (t : List DBRow) (d : CompanyData) (now : Nat)
    (h : t.filter (fun r => r.symbol == d.symbol) = []) :
    mysqlUpsert t d now = t ++ [insertRow d now] := by
  unfold mysqlUpsert
  have hany : (t.any (fun r => r.symbol == d.symbol)) = false := by
    rw [List.any_eq_false]
    exact List.filter_eq_nil_iff.mp h
  simp [hany]

/-- On a symbol whose unique existing row is `r0`, the upsert takes the
UPDATE branch and the rows keyed by that symbol afterwards are exactly
`updatedRow r0 d now`. -/
theorem mysqlUpsert_dup (t : List DBRow) (d : CompanyData) (now : Nat)
    (r0 : DBRow) (h : t.filter (fun r => r.symbol == d.symbol) = [r0]) :
    (mysqlUpsert t d now).filter (fun r => r.symbol == d.symbol)
      = [updatedRow r0 d now] := by
  have hr0mem : r0 ∈ t.filter (fun r => r.symbol == d.symbol) := by
    rw [h]; exact List.mem_singleton_self r0
  have hr0p : (r0.symbol == d.symbol) = true :=
    (List.mem_filter.mp hr0mem).2
  have hany : (t.any (fun r => r.symbol == d.symbol)) = true :=
    List.any_eq_true.mpr ⟨r0, List.mem_of_mem_filter hr0mem, hr0p⟩
  unfold mysqlUpsert
  rw [if_pos hany, List.filter_map]
  have hcomp : ((fun r : DBRow => r.symbol == d.symbol) ∘ (fun r : DBRow =>
      if r.symbol == d.symbol then
        if sameDataFields r d then r
        else { r with revenue := d.revenue, market_cap := d.market_cap,
                      industry := d.industry, sector := d.sector,
                      updated_at := now }
      else r)) = fun r : DBRow => r.symbol == d.symbol := by
    funext r
    simp only [Function.comp_apply]
    rw [upsertMap_symbol]
  rw [hcomp, h, List.map_cons, List.map_nil]
  congr 1
  rw [if_pos hr0p]
  rfl

/-- A successful fetch is keyed by exactly the queried symbol. -/
theorem fetch_symbol_eq (p : String → Except String TickerInfo) (s : String)
    (d : CompanyData) (h : fetch_company_data p s = some d) :
    d.symbol = s := by
  unfold fetch_company_data ticker_symbol_for responseToData at h
  cases hps : p s with
  | error e => rw [hps] at h; exact absurd h (by simp)
  | ok info =>
      rw [hps] at h
      have := Option.some.inj h
      rw [← this]

/-- One loop iteration leaves rows present beforehand or rows keyed by the
iteration's own source symbol. -/
theorem processStep_table_mem (env : Env) (st : LoopState)
    (c : String × String) (r : DBRow)
    (hr : r ∈ (processStep env st c).table) :
    r ∈ st.table ∨ r.symbol = c.1 := by
  unfold processStep insert_company_data at hr
  cases hfc : fetch_company_data env.provider c.1 with
  | none => rw [hfc] at hr; exact Or.inl hr
  | some d =>
      rw [hfc] at hr
      by_cases hok : env.insert_ok d = true
      · simp only [hok, if_true] at hr
        rcases mysqlUpsert_mem st.table d st.clock r hr with h | h
        · exact Or.inl h
        · exact Or.inr (h.trans (fetch_symbol_eq env.provider c.1 d hfc))
      · simp only [hok, Bool.false_eq_true, if_false] at hr
        exact Or.inl hr

/-- Over the whole loop, every final row was present initially or is keyed
by one of the processed source symbols. -/
theorem foldl_table_mem (env : Env) (l : List (String × String)) :
    ∀ st : LoopState, ∀ r ∈ (l.foldl (processStep env) st).table,
      r ∈ st.table ∨ r.symbol ∈ l.map Prod.fst := by
  induction l with
  | nil => intro st r hr; exact Or.inl hr
  | cons c l ih =>
      intro st r hr
      rw [List.foldl_cons] at hr
      rcases ih (processStep env st c) r hr with h | h
      · rcases processStep_table_mem env st c r h with h1 | h1
        · exact Or.inl h1
        · refine Or.inr ?_
          rw [List.map_cons, h1]
          exact List.mem_cons_self c.1 (l.map Prod.fst)
      · exact Or.inr (by rw [List.map_cons]; exact List.mem_cons_of_mem c.1 h)

/-- Over the whole loop, rows keyed by a symbol whose fetch fails are
untouched. -/
theorem foldl_table_filter_fetch_none (env : Env) (s : String)
    (hf : fetch_company_data env.provider s = none)
    (l : List (String × String)) :
    ∀ st : LoopState,
      ((l.foldl (processStep env) st).table).filter
          (fun r => r.symbol == s)
        = st.table.filter (fun r => r.symbol == s) := by
  induction l with
  | nil => intro st; rfl
  | cons c l ih =>
      intro st
      rw [List.foldl_cons, ih]
      unfold processStep insert_company_data
      cases hfc : fetch_company_data env.provider c.1 with
      | none => rfl
      | some d =>
          by_cases hok : env.insert_ok d = true
          · simp only [hok, if_true]
            apply mysqlUpsert_filter_ne
            intro hds
            have hcs : c.1 = s := by
              rw [← hds]; exact (fetch_symbol_eq env.provider c.1 d hfc).symm
            rw [hcs, hf] at hfc
            exact Option.noConfusion hfc
          · simp only [hok, Bool.false_eq_true, if_false]

/-! Claim theorems. -/

/-- C6: for every symbol, `fetch_company_data` maps each of the four
provider fields (`totalRevenue`, `marketCap`, `industry`, `sector`) that
is absent from the provider response to null in the result, and returns an
absent result — never raising to its caller — whenever the provider call
raises any error, of any kind. -/
theorem fetch_error_and_missing_fields
    (p : String → Except String TickerInfo) (s : String) :
    (∀ e, p s = Except.error e → fetch_company_data p s = none) ∧
    (∀ info, p s = Except.ok info →
      fetch_company_data p s
        = some { symbol := s, revenue := info.totalRevenue,
                 market_cap := info.marketCap, industry := info.industry,
                 sector := info.sector }) := by
  constructor
  · intro e he
    unfold fetch_company_data ticker_symbol_for
    rw [he]
    rfl
  · intro info hi
    unfold fetch_company_data ticker_symbol_for
    rw [hi]
    rfl

/-- Witness for C6: a provider that raises yields an absent result, and a
provider response with all four fields missing yields a dict with all four
data values null. -/
theorem fetch_error_and_missing_fields_witness :
    fetch_company_data providerErr "TCS.NS" = none ∧
    fetch_company_data (fun _ => Except.ok infoEmpty) "TCS.NS"
      = some { symbol := "TCS.NS", revenue := none, market_cap := none,
               industry := none, sector := none } :=
  ⟨(fetch_error_and_missing_fields providerErr "TCS.NS").1 "boom" rfl,
   (fetch_error_and_missing_fields (fun _ => Except.ok infoEmpty)
      "TCS.NS").2 infoEmpty rfl⟩

/-- C7: for every symbol read from the source table, the fetch passes
exactly that symbol string to the external provider, unmodified — no
`.NS` or `.BO` suffix or any other transformation is applied — so the
fetch result is determined by the provider response at the symbol itself. -/
theorem fetch_passes_symbol_unmodified
    (p q : String → Except String TickerInfo) (s : String)
    (h : p s = q s) :
    ticker_symbol_for s = s ∧
    fetch_company_data p s = fetch_company_data q s := by
  refine ⟨rfl, ?_⟩
  unfold fetch_company_data ticker_symbol_for
  rw [h]

/-- Witness for C7: two providers that agree on the bare symbol `A` (one
of them rejecting every other ticker string, suffixed forms included)
yield the same fetch result. -/
theorem fetch_passes_symbol_unmodified_witness :
    ticker_symbol_for "A" = "A" ∧
    fetch_company_data providerOk "A"
      = fetch_company_data providerPicky "A" :=
  fetch_passes_symbol_unmodified providerOk providerPicky "A"
    (by simp [providerOk, providerPicky])

/-- C9: `get_company_symbols` returns an empty sequence, without raising,
both when no store connection is established and when the source-table
query fails; otherwise it returns the full list of (symbol, name) pairs
from the source table. -/
theorem list_symbols_error_handling
    (query : Except String (List (String × String))) :
    (get_company_symbols false query = []) ∧
    (∀ e, query = Except.error e → get_company_symbols true query = []) ∧
    (∀ rows, query = Except.ok rows →
      get_company_symbols true query = rows) := by
  refine ⟨rfl, ?_, ?_⟩
  · intro e he; rw [he]; rfl
  · intro rows hrw; rw [hrw]; rfl

/-- Witness for C9: disconnected and failing-query calls return `[]`; a
connected successful query returns the fetched rows. -/
theorem list_symbols_error_handling_witness :
    get_company_symbols false (Except.ok [("A", "Alpha")]) = [] ∧
    get_company_symbols true (Except.error "down") = [] ∧
    get_company_symbols true (Except.ok [("A", "Alpha")])
      = [("A", "Alpha")] :=
  ⟨(list_symbols_error_handling (Except.ok [("A", "Alpha")])).1,
   (list_symbols_error_handling (Except.error "down")).2.1 "down" rfl,
   (list_symbols_error_handling (Except.ok [("A", "Alpha")])).2.2
     [("A", "Alpha")] rfl⟩

/-- C2: at completion of a run whose connect and create-table steps
succeeded, the reported counters satisfy successful + failed = total,
where total is the number of (symbol, name) pairs returned by the
source-table read; each loop iteration increments exactly one of the two
counters (lemma processStep_counters). -/
theorem run_counters_partition (env : Env)
    (hc : env.connect_ok = true) (ht : env.create_table_ok = true) :
    (process_all_companies env).successful
        + (process_all_companies env).failed
      = (process_all_companies env).total := by
  unfold process_all_companies
  rw [hc, ht]
  simp only [if_true]
  rw [foldl_counters]
  simp

/-- Witness for C2 at the concrete healthy one-company environment. -/
theorem run_counters_partition_witness :
    (process_all_companies envBase).successful
        + (process_all_companies envBase).failed
      = (process_all_companies envBase).total :=
  run_counters_partition envBase rfl rfl

/-- C4: if the source-table read returns an empty sequence, the run
completes with total = 0, successful = 0 and failed = 0, performs no store
writes (the destination table is exactly its initial contents), and still
prints the summary and closes the connection exactly once. -/
theorem run_empty_symbols (env : Env)
    (hc : env.connect_ok = true) (ht : env.create_table_ok = true)
    (hs : get_company_symbols true (envQuery env) = []) :
    process_all_companies env
      = { total := 0, successful := 0, failed := 0, table := env.table0,
          sleepCalls := 0, summaryPrinted := true,
          connectionOpened := true, closeCalls := 1 } := by
  unfold process_all_companies
  rw [hc, ht]
  simp only [if_true, hs, List.foldl_nil, List.length_nil]

/-- Witness for C4 at the concrete environment with an empty source
table. -/
theorem run_empty_symbols_witness :
    process_all_companies envEmpty
      = { total := 0, successful := 0, failed := 0,
          table := envEmpty.table0, sleepCalls := 0,
          summaryPrinted := true, connectionOpened := true,
          closeCalls := 1 } :=
  run_empty_symbols envEmpty rfl rfl rfl

/-- Counterexample for C5: in an environment where connect succeeds but
the CREATE TABLE DDL fails, the run returns at line 152 without closing —
a connection was opened, yet close ran zero times, refuting that the
store connection, once opened, is closed exactly once by the end of every
run, aborted runs included. -/
theorem abort_after_ddl_failure_leaves_connection_open :
    (process_all_companies envDDLFail).connectionOpened = true ∧
    (process_all_companies envDDLFail).closeCalls = 0 ∧
    (process_all_companies envDDLFail).sleepCalls = 0 :=
  ⟨rfl, rfl, rfl⟩

/-- C5 (amended): if connect or the CREATE TABLE DDL fails, the run
aborts immediately — no symbols processed, no write, no sleep, no summary
— but the abort does NOT close the connection: close runs zero times on
both abort paths, so a connection opened by a run whose DDL then fails is
left open. -/
theorem abort_before_processing (env : Env)
    (h : env.connect_ok = false ∨ env.create_table_ok = false) :
    process_all_companies env
      = { total := 0, successful := 0, failed := 0, table := env.table0,
          sleepCalls := 0, summaryPrinted := false,
          connectionOpened := env.connect_ok, closeCalls := 0 } := by
  unfold process_all_companies
  rcases h with h | h
  · rw [h]
    simp
  · rw [h]
    cases hc : env.connect_ok with
    | false => simp
    | true => simp

/-- Witness for C5 at the concrete DDL-failure environment. -/
theorem abort_before_processing_witness :
    process_all_companies envDDLFail
      = { total := 0, successful := 0, failed := 0,
          table := envDDLFail.table0, sleepCalls := 0,
          summaryPrinted := false,
          connectionOpened := envDDLFail.connect_ok, closeCalls := 0 } :=
  abort_before_processing envDDLFail (Or.inr rfl)

/-- Counterexample for C8: with exactly one source company the code
executes one sleep call (line 176 runs at the end of every iteration,
the last included), not the zero calls that a strictly between-iterations
placement would give for N = 1. -/
theorem sleep_count_not_between_iterations :
    (process_all_companies envBase).total = 1 ∧
    (process_all_companies envBase).sleepCalls = 1 ∧
    (process_all_companies envBase).sleepCalls
      ≠ (process_all_companies envBase).total - 1 := by
  refine ⟨rfl, rfl, ?_⟩
  decide

/-- C8 (amended): during a run that reaches the loop, a blocking pause of
delay seconds is executed at the end of every iteration — the last one
included — regardless of whether the iteration's fetch and upsert
succeeded or failed, so for N symbols exactly N sleep calls occur (N - 1
of which fall between consecutive iterations, plus one after the last). -/
theorem sleep_after_every_iteration (env : Env)
    (hc : env.connect_ok = true) (ht : env.create_table_ok = true) :
    (∀ st c, (processStep env st c).sleeps = st.sleeps + 1) ∧
    (process_all_companies env).sleepCalls
      = (process_all_companies env).total := by
  refine ⟨processStep_sleeps env, ?_⟩
  unfold process_all_companies
  rw [hc, ht]
  simp only [if_true]
  rw [foldl_sleeps]
  simp

/-- Witness for C8 at the concrete healthy one-company environment. -/
theorem sleep_after_every_iteration_witness :
    (process_all_companies envBase).sleepCalls
      = (process_all_companies envBase).total :=
  (sleep_after_every_iteration envBase rfl rfl).2

/-- C3: for every symbol whose fetch signals failure (returns an absent
result), the loop iteration attempts no upsert — the iteration changes
only the failed counter, the sleep count and the clock, leaving the table
and the successful counter untouched, after which the fold continues with
the next symbol — and over the whole run no store write for that symbol
occurs: the destination rows keyed by it end exactly as they started. -/
theorem fetch_failure_no_write (env : Env) (s : String)
    (hf : fetch_company_data env.provider s = none) :
    (∀ st : LoopState, ∀ name : String,
      processStep env st (s, name)
        = { st with failed := st.failed + 1,
                    sleeps := st.sleeps + 1, clock := st.clock + 1 }) ∧
    (process_all_companies env).table.filter (fun r => r.symbol == s)
      = env.table0.filter (fun r => r.symbol == s) := by
  constructor
  · intro st name
    unfold processStep
    rw [hf]
  · unfold process_all_companies
    cases hc : env.connect_ok with
    | false => simp
    | true =>
        cases ht : env.create_table_ok with
        | false => simp
        | true =>
            simp only [if_true]
            rw [foldl_table_filter_fetch_none env s hf]

/-- Witness for C3 at the concrete environment whose provider always
raises: the destination table stays at its initial contents for symbol A. -/
theorem fetch_failure_no_write_witness :
    (process_all_companies envErr).table.filter (fun r => r.symbol == "A")
      = envErr.table0.filter (fun r => r.symbol == "A") :=
  (fetch_failure_no_write envErr "A" rfl).2

/-- C10: whenever the fetch returns a present result, that result is the
five-field dict of `CompanyData` (symbol, revenue, market_cap, industry,
sector — exactly the keys built at lines 64-70) and its symbol field
equals the input symbol; consequently every row of the destination table
after a run either predates the run or is keyed by one of the exact
symbols read from the source table. -/
theorem fetch_keys_and_run_rows (env : Env) :
    (∀ s d, fetch_company_data env.provider s = some d →
      d.symbol = s ∧
      d = { symbol := s, revenue := d.revenue, market_cap := d.market_cap,
            industry := d.industry, sector := d.sector }) ∧
    (∀ r ∈ (process_all_companies env).table,
      r ∈ env.table0 ∨
        r.symbol ∈ (get_company_symbols true (envQuery env)).map
          Prod.fst) := by
  constructor
  · intro s d hd
    have hs := fetch_symbol_eq env.provider s d hd
    exact ⟨hs, by rw [← hs]⟩
  · intro r hr
    unfold process_all_companies at hr
    cases hc : env.connect_ok with
    | false =>
        rw [hc] at hr
        simp only [Bool.false_eq_true, if_false] at hr
        exact Or.inl hr
    | true =>
        cases ht : env.create_table_ok with
        | false =>
            rw [hc, ht] at hr
            simp only [Bool.false_eq_true, if_false, if_true] at hr
            exact Or.inl hr
        | true =>
            rw [hc, ht] at hr
            simp only [if_true] at hr
            exact foldl_table_mem env _ _ r hr

/-- Witness for C10: the healthy one-company run fetches the five-field
dict for symbol A keyed by A itself, and the row it writes is keyed by a
symbol read from the source table. -/
theorem fetch_keys_and_run_rows_witness :
    dataFull.symbol = "A" ∧
    (rowFull ∈ envBase.table0 ∨
      rowFull.symbol ∈ (get_company_symbols true (envQuery envBase)).map
        Prod.fst) :=
  ⟨((fetch_keys_and_run_rows envBase).1 "A" dataFull rfl).1,
   (fetch_keys_and_run_rows envBase).2 rowFull (by decide)⟩

/-- The four component equalities packed into `sameDataFields`. -/
theorem sameDataFields_eq (r : DBRow) (d : CompanyData)
    (h : sameDataFields r d = true) :
    r.revenue = d.revenue ∧ r.market_cap = d.market_cap ∧
      r.industry = d.industry ∧ r.sector = d.sector := by
  unfold sameDataFields at h
  simp only [Bool.and_eq_true, beq_iff_eq] at h
  exact ⟨h.1.1.1, h.1.1.2, h.1.2, h.2⟩

/-- Counterexample for C1: upserting symbol A with exactly the values its
existing row already holds, at a strictly later clock (5, versus the
row's updated_at of 0), leaves the row unchanged.  MySQL does not modify
a row that an ON DUPLICATE KEY UPDATE sets to its current values, so the
ON UPDATE CURRENT_TIMESTAMP column updated_at does not advance, refuting
the part of the claim that says updated_at advances on every upsert of an
already-present symbol. -/
theorem upsert_identical_values_updated_at_stuck :
    rowCount [rowA0] dataA.symbol = 1 ∧
    rowA0.updated_at = 0 ∧
    mysqlUpsert [rowA0] dataA 5 = [rowA0] :=
  ⟨by decide, rfl, by decide⟩

/-- C1 (amended): for every upsert of a symbol not previously present,
exactly one row for that symbol exists afterward, carrying the provided
revenue, market_cap, industry and sector, with created_at equal to
updated_at; for every upsert of an already-present symbol, the row count
for that symbol stays 1, created_at is unchanged, the four data fields
equal the newest fetched values — and updated_at advances exactly when at
least one of the four stored values changes: when the refetched values
are identical, the row, updated_at included, is left untouched. -/
theorem upsert_row_semantics (t : List DBRow) (d : CompanyData)
    (now : Nat) :
    (t.filter (fun r => r.symbol == d.symbol) = [] →
      (mysqlUpsert t d now).filter (fun r => r.symbol == d.symbol)
        = [insertRow d now] ∧
      rowCount (mysqlUpsert t d now) d.symbol = 1 ∧
      (insertRow d now).revenue = d.revenue ∧
      (insertRow d now).market_cap = d.market_cap ∧
      (insertRow d now).industry = d.industry ∧
      (insertRow d now).sector = d.sector ∧
      (insertRow d now).created_at = (insertRow d now).updated_at) ∧
    (∀ r0 : DBRow, t.filter (fun r => r.symbol == d.symbol) = [r0] →
      (mysqlUpsert t d now).filter (fun r => r.symbol == d.symbol)
        = [updatedRow r0 d now] ∧
      rowCount (mysqlUpsert t d now) d.symbol = 1 ∧
      (updatedRow r0 d now).created_at = r0.created_at ∧
      (updatedRow r0 d now).revenue = d.revenue ∧
      (updatedRow r0 d now).market_cap = d.market_cap ∧
      (updatedRow r0 d now).industry = d.industry ∧
      (updatedRow r0 d now).sector = d.sector ∧
      (sameDataFields r0 d = false →
        (updatedRow r0 d now).updated_at = now) ∧
      (sameDataFields r0 d = true → updatedRow r0 d now = r0)) := by
  constructor
  · intro h
    have hfilter : (mysqlUpsert t d now).filter
        (fun r => r.symbol == d.symbol) = [insertRow d now] := by
      rw [mysqlUpsert_fresh t d now h, List.filter_append, h,
        List.nil_append]
      simp [insertRow]
    refine ⟨hfilter, ?_, rfl, rfl, rfl, rfl, rfl⟩
    unfold rowCount
    rw [hfilter]
    rfl
  · intro r0 h
    have hfilter := mysqlUpsert_dup t d now r0 h
    refine ⟨hfilter, ?_, ?_, ?_, ?_, ?_, ?_, ?_, ?_⟩
    · unfold rowCount
      rw [hfilter]
      rfl
    · unfold updatedRow
      by_cases hs : sameDataFields r0 d = true <;> simp [hs]
    · unfold updatedRow
      by_cases hs : sameDataFields r0 d = true
      · rw [if_pos hs]
        exact (sameDataFields_eq r0 d hs).1
      · rw [if_neg hs]
    · unfold updatedRow
      by_cases hs : sameDataFields r0 d = true
      · rw [if_pos hs]
        exact (sameDataFields_eq r0 d hs).2.1
      · rw [if_neg hs]
    · unfold updatedRow
      by_cases hs : sameDataFields r0 d = true
      · rw [if_pos hs]
        exact (sameDataFields_eq r0 d hs).2.2.1
      · rw [if_neg hs]
    · unfold updatedRow
      by_cases hs : sameDataFields r0 d = true
      · rw [if_pos hs]
        exact (sameDataFields_eq r0 d hs).2.2.2
      · rw [if_neg hs]
    · intro hs
      unfold updatedRow
      rw [if_neg (by rw [hs]; exact Bool.false_ne_true)]
    · intro hs
      unfold updatedRow
      rw [if_pos hs]

/-- Witness for C1: a fresh upsert of symbol A yields exactly the new
row, and a re-upsert of A with a changed revenue keeps the row count at 1
and refreshes updated_at to the statement time. -/
theorem upsert_row_semantics_witness :
    (mysqlUpsert [] dataA 3).filter (fun r => r.symbol == dataA.symbol)
      = [insertRow dataA 3] ∧
    rowCount (mysqlUpsert [rowA0] dataB 7) dataB.symbol = 1 ∧
    (updatedRow rowA0 dataB 7).updated_at = 7 :=
  ⟨((upsert_row_semantics [] dataA 3).1 rfl).1,
   ((upsert_row_semantics [rowA0] dataB 7).2 rowA0 (by decide)).2.1,
   ((upsert_row_semantics [rowA0] dataB 7).2 rowA0
      (by decide)).2.2.2.2.2.2.2.1 (by decide)⟩

end IndianCompanies
